import Mathlib

/-!
Shallow embedding of the Stockify backend (src/main.py).

The persistent store is modelled as a list of rows in the store's native
return order; quantities and thresholds, handled as floats in the source,
are modelled as rationals.  Supabase calls are modelled as pure functions
on that list; a raised-and-caught Python exception is modelled by a
`failed` result carrying the store state at the point of failure.
-/

attribute [local semireducible] Rat.add Rat.sub Rat.mul Rat.inv

/-- A row of the `inventory` table: columns `id, item_name, quantity, unit,
threshold` (threshold is nullable). -/
structure InventoryItem where
  id : Nat
  item_name : String
  quantity : ℚ
  unit : String
  threshold : Option ℚ
deriving DecidableEq, Repr

/-- ASCII lower-casing of one character, as PostgreSQL `lower` acts on the
ASCII item names this system handles. -/
def lowerChar (c : Char) : Char :=
  if 65 ≤ c.toNat ∧ c.toNat ≤ 90 then Char.ofNat (c.toNat + 32) else c

/-- ASCII lower-casing of a string. -/
def lowerStr (s : String) : String :=
  ⟨s.data.map lowerChar⟩

/-- `ilike` pattern matching as used by `.ilike("item_name", name)`:
for a pattern containing no `%` or `_` wildcard, PostgreSQL `ILIKE` is
case-insensitive string equality.  Item names in this development are
taken wildcard-free, so this is the faithful semantics. -/
def ilikeMatch (pat s : String) : Bool :=
  lowerStr pat == lowerStr s

/-- `supabase.table("inventory").select("*").ilike("item_name", name).execute()`
followed by taking `data[0]`: the rows matching case-insensitively, in the
store's native return order; `data[0]` is the head of that list.
Read-only: returns no modified store. -/
def findItem (store : List InventoryItem) (name : String) : Option InventoryItem :=
  (store.filter (fun r => ilikeMatch name r.item_name)).head?

/-- `supabase.table("inventory").update({"quantity": q}).eq("id", i).execute()`:
sets the `quantity` column of every row whose `id` equals `i`, leaving all
other columns and all other rows untouched. -/
def updateQuantity (store : List InventoryItem) (i : Nat) (q : ℚ) : List InventoryItem :=
  store.map (fun r => if r.id = i then { r with quantity := q } else r)

/-- Render a rational the way the source renders the numbers it puts in
log strings. -/
def qstr (q : ℚ) : String :=
  if q.den = 1 then toString q.num else toString q.num ++ "/" ++ toString q.den

/-- One element of the parsed `data["actions"]` array in `/voice-action`.
Each field is `Option`: `none` models a JSON object missing that key, so
that the `KeyError` raised by `action["…"]` can be modelled. -/
structure ActionEntry where
  action_type : Option String
  item : Option String
  quantity : Option ℚ
deriving DecidableEq, Repr

/-- Outcome of running a batch loop: `ok` carries the final store and the
accumulated log lines; `failed` models a Python exception escaping the
loop body and being caught by the surrounding `except`, carrying the
store as already mutated by earlier iterations and the error message
(the log lines accumulated so far are discarded by the handler). -/
inductive BatchResult where
  | ok (store : List InventoryItem) (logs : List String)
  | failed (store : List InventoryItem) (error : String)
deriving DecidableEq, Repr

/-- Accumulation plumbing for the batch loops: `updates_made.append(log)` /
`logs.append(log)` followed by the rest of the loop.  On a later failure
the accumulated lines are discarded, since the `except` handler returns
only the error message. -/
def consLog (log : String) : BatchResult → BatchResult
  | .ok s ls => .ok s (log :: ls)
  | .failed s e => .failed s e

/-- The `for action in actions` loop of `process_voice` (src/main.py:79-95).
Only `action_type == "USE"` entries are handled; any other entry falls
through the `if` with no effect and no log line.  A missing key raises
`KeyError`, aborting the whole loop. -/
def processActions : List InventoryItem → List ActionEntry → BatchResult
  | store, [] => .ok store []
  | store, a :: rest =>
    match a.action_type with
    | none => .failed store "KeyError: action_type"
    | some t =>
      if t = "USE" then
        match a.item with
        | none => .failed store "KeyError: item"
        | some item_name =>
          match a.quantity with
          | none => .failed store "KeyError: quantity"
          | some qty_used =>
            match findItem store item_name with
            | some db_item =>
              let new_stock := db_item.quantity - qty_used
              let store2 := updateQuantity store db_item.id new_stock
              consLog ("Updated " ++ item_name ++ ": " ++ qstr db_item.quantity
                ++ " -> " ++ qstr new_stock) (processActions store2 rest)
            | none =>
              consLog ("Error: Could not find \x27" ++ item_name ++ "\x27 in inventory")
                (processActions store rest)
      else
        processActions store rest

/-- The parsed JSON body produced by the AI gateway for `/voice-action`;
`actions` is `data.get("actions", [])`. -/
structure VoiceData where
  actions : List ActionEntry
deriving DecidableEq, Repr

/-- JSON response of `/voice-action`: either the success payload
`{"ai_analysis": …, "db_updates": …}` or the `{"error": …}` payload
produced by the handler's `except` clause. -/
inductive VoiceResponse where
  | ok (ai_analysis : VoiceData) (db_updates : List String)
  | error (msg : String)
deriving DecidableEq, Repr

/-- `/voice-action` handler (src/main.py:55-100), from the point where the
raw model text has been fence-stripped.  `parsed = none` models
`json.loads` raising on non-JSON text, caught by the handler's `except`
before any store access; otherwise the action loop runs.  Returns the
response together with the resulting store state. -/
def process_voice (parsed : Option VoiceData) (store : List InventoryItem) :
    VoiceResponse × List InventoryItem :=
  match parsed with
  | none => (.error "json.loads: Expecting value", store)
  | some data =>
    match processActions store data.actions with
    | .ok s ls => (.ok data ls, s)
    | .failed s e => (.error e, s)

/-- One element of the parsed `data["items"]` array in `/scan-bill`.  The
gateway prompt asks the model for `item`, `quantity` and `unit` keys;
again each field is `Option` to model a missing key. -/
structure BillItem where
  item : Option String
  quantity : Option ℚ
  unit : Option String
deriving DecidableEq, Repr

/-- The `for item in items` loop of `scan_bill` (src/main.py:130-143).
`nextId` models the store-assigned id of the next inserted row (the
insert appends at the end of the store's native order).  Note the
insert writes the literal string `"unit"` as the unit column and never
reads the entry's `unit` field. -/
def processBillItems : List InventoryItem → Nat → List BillItem → BatchResult
  | store, _, [] => .ok store []
  | store, nextId, it :: rest =>
    match it.item with
    | none => .failed store "KeyError: item"
    | some name =>
      match it.quantity with
      | none => .failed store "KeyError: quantity"
      | some qty =>
        match findItem store name with
        | some existing =>
          let new_qty := existing.quantity + qty
          let store2 := updateQuantity store existing.id new_qty
          consLog ("Added " ++ qstr qty ++ " to " ++ name ++ " (Total: "
            ++ qstr new_qty ++ ")") (processBillItems store2 nextId rest)
        | none =>
          let newRow : InventoryItem :=
            { id := nextId, item_name := name, quantity := qty,
              unit := "unit", threshold := none }
          consLog ("Created new item: " ++ name ++ " (" ++ qstr qty ++ ")")
            (processBillItems (store ++ [newRow]) (nextId + 1) rest)

/-- The parsed JSON body produced by the vision gateway for `/scan-bill`;
`items` is `data.get("items", [])`. -/
structure BillData where
  items : List BillItem
deriving DecidableEq, Repr

/-- JSON response of `/scan-bill`: the success payload
`{"status": "success", "logs": …, "scanned_data": …}` or the
`{"error": …}` payload from the `except` clause. -/
inductive BillResponse where
  | success (logs : List String) (scanned_data : BillData)
  | error (msg : String)
deriving DecidableEq, Repr

/-- `/scan-bill` handler (src/main.py:102-148), from the point where the
raw model text has been fence-stripped; as in `process_voice`,
`parsed = none` models `json.loads` raising. -/
def scan_bill (parsed : Option BillData) (store : List InventoryItem) (nextId : Nat) :
    BillResponse × List InventoryItem :=
  match parsed with
  | none => (.error "json.loads: Expecting value", store)
  | some data =>
    match processBillItems store nextId data.items with
    | .ok s ls => (.success ls data, s)
    | .failed s e => (.error e, s)

/-- `GET /inventory` handler (src/main.py:50-53): a bare
`select("*").execute()` with no `order` clause — the rows come back in
the store's native return order and are returned as-is. -/
def get_inventory (store : List InventoryItem) : List InventoryItem :=
  store

/-- Python `round(x, 2)` on the rational model: round to 2 decimal places
with ties to even (banker's rounding, as Python's `round` does). -/
def round2 (q : ℚ) : ℚ :=
  let n : ℚ := q * 100
  let f : ℤ := ⌊n⌋
  let k : ℤ :=
    if n - f < 1/2 then f
    else if n - f > 1/2 then f + 1
    else if f % 2 = 0 then f else f + 1
  (k : ℚ) / 100

/-- Python truthiness-based default `item.get("threshold") or 2.0`:
a missing / null threshold and a threshold of exactly `0` (falsy) both
yield the default `2.0`; any other value is kept. -/
def pyOrDefault (t : Option ℚ) (dflt : ℚ) : ℚ :=
  match t with
  | none => dflt
  | some v => if v = 0 then dflt else v

/-- An element of the `/shopping-list` response array. -/
structure ShoppingEntry where
  item_name : String
  quantity : ℚ
  needed : ℚ
  unit : String
deriving DecidableEq, Repr

/-- `GET /shopping-list` handler (src/main.py:151-174): for each inventory
row, `safe_limit = item.get("threshold") or 2.0`; rows with
`quantity < safe_limit` contribute one entry, in snapshot order. -/
def get_shopping_list : List InventoryItem → List ShoppingEntry
  | [] => []
  | item :: rest =>
    let safe_limit := pyOrDefault item.threshold 2
    let current_qty := item.quantity
    if current_qty < safe_limit then
      { item_name := item.item_name, quantity := round2 current_qty,
        needed := round2 (safe_limit - current_qty), unit := item.unit }
        :: get_shopping_list rest
    else
      get_shopping_list rest

/-! ### Sample store rows and action entries used as concrete test data -/

/-- A 3-unit egg stock, as in the spec's clamping example. -/
def eggRow : InventoryItem :=
  { id := 1, item_name := "egg", quantity := 3, unit := "unit", threshold := none }

/-- A 2-liter milk stock whose stored name is capitalised. -/
def milkRow : InventoryItem :=
  { id := 2, item_name := "Milk", quantity := 2, unit := "liter", threshold := some 1 }

/-- A USE action consuming 1000 eggs (far more than the stock of 3). -/
def useEgg1000 : ActionEntry :=
  { action_type := some "USE", item := some "egg", quantity := some 1000 }

/-- A well-formed USE action consuming 1 egg. -/
def useEgg1 : ActionEntry :=
  { action_type := some "USE", item := some "egg", quantity := some 1 }

/-- A malformed USE action: the `quantity` key is missing, so
`action["quantity"]` raises `KeyError`. -/
def badGhost : ActionEntry :=
  { action_type := some "USE", item := some "ghost", quantity := none }

/-- A well-formed USE action consuming 1 milk. -/
def useMilk1 : ActionEntry :=
  { action_type := some "USE", item := some "milk", quantity := some 1 }

/-- An ADD action for 2 milk, as a voice-derived batch could contain. -/
def addMilk2 : ActionEntry :=
  { action_type := some "ADD", item := some "milk", quantity := some 2 }

/-! ### Claim theorems -/

/-- C1: counterexample.  Consuming 1000 from the 3-unit egg stock persists
quantity `3 - 1000 = -997`: the code (src/main.py:90-92) writes
`current - used` with no clamp, while the claim states the persisted
quantity is `max(0, 3 - 1000) = 0`.  A negative quantity is persisted. -/
theorem C1_counterexample :
    processActions [eggRow] [useEgg1000] =
      .ok [{ eggRow with quantity := -997 }] ["Updated egg: 3 -> -997"] ∧
    ({ eggRow with quantity := -997 } : InventoryItem).quantity ≠ max 0 (3 - 1000) ∧
    ({ eggRow with quantity := -997 } : InventoryItem).quantity < 0 := by
  refine ⟨by decide, by norm_num, by norm_num⟩

/-- C1 (amended): for every consumption of an existing item, the quantity
persisted to the store is exactly `current_quantity - consumed_quantity`,
with no non-negative clamp: consuming more than is in stock persists a
negative quantity.  The update is keyed by the matched row's id and the
batch continues on the updated store. -/
theorem C1_amended_thm (store : List InventoryItem) (name : String) (qty : ℚ)
    (r : InventoryItem) (rest : List ActionEntry)
    (h : findItem store name = some r) :
    processActions store
      ({ action_type := some "USE", item := some name, quantity := some qty } :: rest) =
    consLog ("Updated " ++ name ++ ": " ++ qstr r.quantity ++ " -> " ++ qstr (r.quantity - qty))
      (processActions (updateQuantity store r.id (r.quantity - qty)) rest) := by
  simp only [processActions, h, reduceIte]

/-- C1 (amended) witness: concrete run on the 3-unit egg stock. -/
theorem C1_amended_witness :
    findItem [eggRow] "egg" = some eggRow ∧
    processActions [eggRow] [useEgg1000] =
      consLog ("Updated " ++ "egg" ++ ": " ++ qstr eggRow.quantity ++ " -> "
          ++ qstr (eggRow.quantity - 1000))
        (processActions (updateQuantity [eggRow] eggRow.id (eggRow.quantity - 1000)) []) :=
  ⟨by decide, C1_amended_thm [eggRow] "egg" 1000 eggRow [] (by decide)⟩

/-- C5: for every consumption whose item name has no case-insensitive match,
no row is created and the store is passed on unchanged (no write); the
outcome is the error log line for that entry rather than a raised
exception, and the rest of the batch is still processed
(src/main.py:94-95). -/
theorem C5_thm (store : List InventoryItem) (name : String) (qty : ℚ)
    (rest : List ActionEntry)
    (h : findItem store name = none) :
    processActions store
      ({ action_type := some "USE", item := some name, quantity := some qty } :: rest) =
    consLog ("Error: Could not find \x27" ++ name ++ "\x27 in inventory")
      (processActions store rest) := by
  simp only [processActions, h, reduceIte]

/-- C5 witness: consuming the absent item "ghost" from a store holding only
eggs leaves the store unchanged and logs the not-found line. -/
theorem C5_witness :
    findItem [eggRow] "ghost" = none ∧
    processActions [eggRow]
      [{ action_type := some "USE", item := some "ghost", quantity := some 1 }] =
    consLog ("Error: Could not find \x27" ++ "ghost" ++ "\x27 in inventory")
      (processActions [eggRow] []) :=
  ⟨by decide, C5_thm [eggRow] "ghost" 1 [] (by decide)⟩

/-- C8: for every store state, a malformed (non-JSON) AI interpretation
makes `/voice-action` return a single top-level error payload, and the
store is unchanged — `json.loads` raises before the action loop, so no
store write is attempted for any entry (src/main.py:71-100). -/
theorem C8_thm (store : List InventoryItem) :
    process_voice none store = (.error "json.loads: Expecting value", store) :=
  rfl

/-- C2: counterexample.  In a 3-entry batch whose 2nd entry is malformed
(missing `quantity`, so `action["quantity"]` raises `KeyError`), the whole
request fails with a single top-level error: the 1st entry's write has
been applied (egg 3 → 2), but the 3rd entry is never processed (Milk
stays at 2) and no per-entry log lines are returned.  The claim instead
says the failure is rendered as an error log line for that entry only and
the 3rd entry is still processed — the loop body has no per-entry
try/except (src/main.py:59-100 wraps the whole loop in one handler). -/
theorem C2_counterexample :
    processActions [eggRow, milkRow] [useEgg1, badGhost, useMilk1] =
      .failed [{ eggRow with quantity := 2 }, milkRow] "KeyError: quantity" := by
  decide

/-- C2 (amended): an unexpected failure while processing a single entry
(here: a malformed USE entry missing its required `quantity` field)
aborts the remainder of the batch: the loop raises, the surrounding
handler catches it at the request boundary, and the result is a single
top-level error payload carrying the store as mutated by the earlier
entries; no subsequent entry is processed and no per-entry log lines
survive. -/
theorem C2_amended_thm (store : List InventoryItem) (a : ActionEntry)
    (rest : List ActionEntry)
    (h1 : a.action_type = some "USE") (h2 : a.item.isSome)
    (h3 : a.quantity = none) :
    processActions store (a :: rest) = .failed store "KeyError: quantity" := by
  obtain ⟨t0, i0, q0⟩ := a
  obtain ⟨n, rfl⟩ := Option.isSome_iff_exists.mp h2
  simp only at h1 h3
  subst h1 h3
  simp only [processActions, reduceIte]

/-- C2 (amended) witness: the malformed ghost entry aborts any batch
at once, independent of what follows it. -/
theorem C2_amended_witness :
    processActions [eggRow, milkRow] [badGhost, useMilk1] =
      .failed [eggRow, milkRow] "KeyError: quantity" :=
  C2_amended_thm [eggRow, milkRow] badGhost [useMilk1] (by decide) (by decide) (by decide)

/-- C3: counterexample.  A voice-derived batch holding one ADD entry
produces zero log lines, not one, and applies no delta: the loop only
handles `action_type == "USE"` entries (src/main.py:80) and silently
ignores every other entry, so the milk stock stays at 2 and `db_updates`
is empty, where the claim asks for one log line and a +2 update. -/
theorem C3_counterexample :
    processActions [milkRow] [addMilk2] = .ok [milkRow] [] := by
  decide

/-- Well-formedness of a voice action entry: it has an `action_type` key,
and when that is `"USE"` it also has the `item` and `quantity` keys the
loop body reads. -/
def wellFormedEntry (a : ActionEntry) : Prop :=
  a.action_type ≠ none ∧
    (a.action_type = some "USE" → a.item ≠ none ∧ a.quantity ≠ none)

instance (a : ActionEntry) : Decidable (wellFormedEntry a) := by
  unfold wellFormedEntry
  infer_instance

/-- C3 (amended): the voice reconciler produces exactly one log line per
USE-kind entry, in input order; ADD-kind entries (and every other
non-USE entry) are silently skipped — no delta is applied via the stock
mutator, no log line is produced.  First conjunct: a non-USE entry is a
no-op of the loop.  Second conjunct: a batch of well-formed entries
succeeds with exactly one log line per USE entry. -/
theorem C3_amended_thm :
    (∀ (store : List InventoryItem) (a : ActionEntry) (rest : List ActionEntry)
        (t : String), a.action_type = some t → t ≠ "USE" →
        processActions store (a :: rest) = processActions store rest) ∧
    (∀ (entries : List ActionEntry) (store : List InventoryItem),
        (∀ a ∈ entries, wellFormedEntry a) →
        ∃ s ls, processActions store entries = .ok s ls ∧
          ls.length = (entries.filter (fun a => a.action_type == some "USE")).length) := by
  constructor
  · intro store a rest t ht htne
    obtain ⟨t0, i0, q0⟩ := a
    simp only at ht
    subst ht
    simp only [processActions, if_neg htne]
  · intro entries
    induction entries with
    | nil => exact fun store _ => ⟨store, [], rfl, rfl⟩
    | cons a rest ih =>
      intro store hwf
      obtain ⟨h1, h2⟩ := hwf a (List.mem_cons_self a rest)
      have hrest := fun b hb => hwf b (List.mem_cons_of_mem a hb)
      obtain ⟨t0, i0, q0⟩ := a
      cases t0 with
      | none => exact absurd rfl h1
      | some t =>
        by_cases ht : t = "USE"
        · subst ht
          obtain ⟨hi, hq⟩ := h2 rfl
          cases i0 with
          | none => exact absurd rfl hi
          | some item_name =>
            cases q0 with
            | none => exact absurd rfl hq
            | some qty =>
              cases hfind : findItem store item_name with
              | some db_item =>
                obtain ⟨s, ls, hrun, hlen⟩ :=
                  ih (updateQuantity store db_item.id (db_item.quantity - qty)) hrest
                have hstep : processActions store
                    ({ action_type := some "USE", item := some item_name,
                       quantity := some qty } :: rest) =
                    consLog ("Updated " ++ item_name ++ ": " ++ qstr db_item.quantity
                      ++ " -> " ++ qstr (db_item.quantity - qty))
                      (processActions
                        (updateQuantity store db_item.id (db_item.quantity - qty)) rest) := by
                  simp only [processActions, hfind, reduceIte]
                rw [hstep, hrun]
                exact ⟨s, _ :: ls, rfl, by simp [List.filter_cons, hlen]⟩
              | none =>
                obtain ⟨s, ls, hrun, hlen⟩ := ih store hrest
                have hstep : processActions store
                    ({ action_type := some "USE", item := some item_name,
                       quantity := some qty } :: rest) =
                    consLog ("Error: Could not find \x27" ++ item_name
                      ++ "\x27 in inventory") (processActions store rest) := by
                  simp only [processActions, hfind, reduceIte]
                rw [hstep, hrun]
                exact ⟨s, _ :: ls, rfl, by simp [List.filter_cons, hlen]⟩
        · obtain ⟨s, ls, hrun, hlen⟩ := ih store hrest
          refine ⟨s, ls, ?_, ?_⟩
          · simp only [processActions, if_neg ht, hrun]
          · rw [hlen]
            have : ((⟨some t, i0, q0⟩ : ActionEntry).action_type == some "USE") = false := by
              simp only [ActionEntry.mk.injEq]
              exact beq_eq_false_iff_ne.mpr (by simpa using ht)
            simp only [List.filter, this]

/-- C3 (amended) witness: an ADD entry is dropped from the front of a
batch, and a concrete well-formed batch of one ADD and one USE entry
yields exactly one log line. -/
theorem C3_amended_witness :
    processActions [milkRow] [addMilk2, useMilk1] = processActions [milkRow] [useMilk1] ∧
    ∃ s ls, processActions [milkRow] [addMilk2, useMilk1] = .ok s ls ∧
      ls.length = ([addMilk2, useMilk1].filter
        (fun a => a.action_type == some "USE")).length := by
  constructor
  · exact C3_amended_thm.1 [milkRow] addMilk2 [useMilk1] "ADD" (by decide) (by decide)
  · exact C3_amended_thm.2 [addMilk2, useMilk1] [milkRow] (by decide)

/-- The bill entry the C4 counterexample uses: the vision gateway supplies
an explicit `"liter"` unit with the milk line. -/
def milkBillItem : BillItem :=
  { item := some "milk", quantity := some 1, unit := some "liter" }

/-- C4: counterexample.  Adding the nonexistent item "milk" with the
entry-provided unit `"liter"` creates one new row — but its unit column
holds the hardcoded literal `"unit"` (src/main.py:142), not the unit
provided with the entry, contradicting the claim that the created row's
unit equals the entry's unit_hint. -/
theorem C4_counterexample :
    processBillItems [] 7 [milkBillItem] =
      .ok [{ id := 7, item_name := "milk", quantity := 1, unit := "unit",
             threshold := none }] ["Created new item: milk (1)"] ∧
    milkBillItem.unit = some "liter" ∧ ("unit" : String) ≠ "liter" := by
  refine ⟨by decide, by decide, by decide⟩

/-- C4 (amended): for every addition whose item name has no
case-insensitive match, exactly one new row is appended, with the given
quantity but with unit equal to the constant string `"unit"` — the unit
provided with the entry is ignored (the statement holds for every value
`u` of the entry's unit field); the log line reports creation, and the
rest of the batch continues on the extended store. -/
theorem C4_amended_thm (store : List InventoryItem) (nextId : Nat)
    (name : String) (qty : ℚ) (u : Option String) (rest : List BillItem)
    (h : findItem store name = none) :
    processBillItems store nextId
      ({ item := some name, quantity := some qty, unit := u } :: rest) =
    consLog ("Created new item: " ++ name ++ " (" ++ qstr qty ++ ")")
      (processBillItems
        (store ++ [{ id := nextId, item_name := name, quantity := qty,
                     unit := "unit", threshold := none }])
        (nextId + 1) rest) := by
  simp only [processBillItems, h]

/-- C4 (amended) witness: the concrete milk bill line appends one row with
unit `"unit"` even though the entry carries `"liter"`. -/
theorem C4_amended_witness :
    findItem [] "milk" = none ∧
    processBillItems [] 7 [{ item := some "milk", quantity := some 1,
                             unit := some "liter" }] =
    consLog ("Created new item: " ++ "milk" ++ " (" ++ qstr 1 ++ ")")
      (processBillItems
        [{ id := 7, item_name := "milk", quantity := 1, unit := "unit",
           threshold := none }] 8 []) :=
  ⟨rfl, C4_amended_thm [] 7 "milk" 1 (some "liter") [] rfl⟩

/-- Sorted-ascending-by-item_name predicate used to state C9. -/
def sortedByName (l : List InventoryItem) : Prop :=
  l.Chain' (fun a b => a.item_name ≤ b.item_name)

/-- A banana row that precedes an apple row in the store's native order. -/
def bananaRow : InventoryItem :=
  { id := 10, item_name := "banana", quantity := 1, unit := "unit", threshold := none }

/-- An apple row stored after the banana row. -/
def appleRow : InventoryItem :=
  { id := 11, item_name := "apple", quantity := 1, unit := "unit", threshold := none }

/-- C9: counterexample.  `GET /inventory` is a bare `select("*")` with no
`order` clause (src/main.py:52): on a store whose native order is
[banana, apple] the endpoint returns [banana, apple], which is not
ordered by `item_name` ascending as the claim states. -/
theorem C9_counterexample :
    get_inventory [bananaRow, appleRow] = [bananaRow, appleRow] ∧
    ¬ sortedByName (get_inventory [bananaRow, appleRow]) := by
  refine ⟨rfl, ?_⟩
  intro hsort
  have hsort2 : sortedByName [bananaRow, appleRow] := hsort
  unfold sortedByName at hsort2
  have h : bananaRow.item_name ≤ appleRow.item_name := hsort2.rel_head
  rw [show bananaRow.item_name = "banana" from rfl,
    show appleRow.item_name = "apple" from rfl,
    String.le_iff_toList_le] at h
  revert h
  decide

/-- C9 (amended): for every store state, `GET /inventory` returns the full
inventory exactly as the store returns it — every row, in the store's
native return order, with no sorting applied. -/
theorem C9_amended_thm (store : List InventoryItem) :
    get_inventory store = store :=
  rfl

/-- Safe limit as the spec words it: the item's threshold when present and
truthy, and 2.0 otherwise, a threshold of exactly 0 being treated as
absent and replaced by 2.0.  Stated independently of the code's
`pyOrDefault` to compare the two. -/
def specSafeLimit (item : InventoryItem) : ℚ :=
  match item.threshold with
  | some t => if t ≠ 0 then t else 2
  | none => 2

/-- The shopping-list entry the spec describes for a low-stock item. -/
def specShoppingEntry (item : InventoryItem) : ShoppingEntry :=
  { item_name := item.item_name, quantity := round2 item.quantity,
    needed := round2 (specSafeLimit item - item.quantity), unit := item.unit }

/-- The code's safe limit agrees with the spec's: `threshold or 2.0`
treats a missing threshold and a threshold of exactly 0 alike. -/
theorem pyOrDefault_eq_specSafeLimit (item : InventoryItem) :
    pyOrDefault item.threshold 2 = specSafeLimit item := by
  unfold pyOrDefault specSafeLimit
  cases item.threshold with
  | none => rfl
  | some t =>
    by_cases h : t = 0
    · simp [h]
    · simp [h]

/-- C6: for every inventory snapshot, the shopping-list deriver emits an
entry for an item iff the item's quantity is strictly below its safe
limit — the threshold when present and truthy, 2.0 otherwise, a
threshold of exactly 0 counting as absent — and each entry carries the
quantity rounded to 2 decimals and `needed = round(safe_limit − quantity, 2)`,
in snapshot order (src/main.py:157-174). -/
theorem C6_thm (data : List InventoryItem) :
    get_shopping_list data =
      (data.filter (fun it => decide (it.quantity < specSafeLimit it))).map
        specShoppingEntry := by
  induction data with
  | nil => rfl
  | cons item rest ih =>
    simp only [get_shopping_list, List.filter_cons, pyOrDefault_eq_specSafeLimit]
    by_cases h : item.quantity < specSafeLimit item
    · rw [if_pos h, if_pos (by simpa using h), List.map_cons, ih]
      rfl
    · rw [if_neg h, if_neg (by simpa using h), ih]

/-- C7: item lookup is case-insensitive — two names equal up to ASCII case
resolve identically — and when the store returns several matching rows
the first row in the store's native return order is selected.  The
lookup itself is the read-only `findItem`; it takes the store and
returns only a row, issuing no write (src/main.py:85-89). -/
theorem C7_thm (store : List InventoryItem) (n1 n2 : String)
    (h : lowerStr n1 = lowerStr n2) :
    findItem store n1 = findItem store n2 ∧
    (∀ (pre : List InventoryItem) (r : InventoryItem) (post : List InventoryItem),
      store = pre ++ r :: post →
      (∀ p ∈ pre, ilikeMatch n1 p.item_name = false) →
      ilikeMatch n1 r.item_name = true →
      findItem store n1 = some r) := by
  constructor
  · unfold findItem
    have hpred : ∀ r ∈ store, ilikeMatch n1 r.item_name = ilikeMatch n2 r.item_name := by
      intro r _
      unfold ilikeMatch
      rw [h]
    rw [List.filter_congr hpred]
  · intro pre r post hsplit hpre hr
    subst hsplit
    unfold findItem
    rw [List.filter_append]
    have hnil : List.filter (fun x => ilikeMatch n1 x.item_name) pre = [] :=
      List.filter_eq_nil_iff.mpr (fun p hp => by simp [hpre p hp])
    rw [hnil, List.nil_append, List.filter_cons_of_pos (by exact hr)]
    rfl

/-- C7 witness: "MILK" and "milk" resolve to the same row, and on a store
whose first case-insensitive match for "MILK" is the capitalised Milk
row, that row is returned. -/
theorem C7_witness :
    findItem [eggRow, milkRow] "MILK" = findItem [eggRow, milkRow] "milk" ∧
    findItem [eggRow, milkRow] "MILK" = some milkRow := by
  have h := C7_thm [eggRow, milkRow] "MILK" "milk" (by decide)
  exact ⟨h.1, h.2 [eggRow] milkRow [] rfl (by decide) (by decide)⟩

/-- C10: for every update of a matched item's stock (both the voice USE
path, src/main.py:92, and the bill ADD path, src/main.py:139, issue
`update({"quantity": q}).eq("id", i)`, modelled by `updateQuantity`),
the store keeps the same number of rows, the row at every position keeps
its `id`, `item_name`, `unit` and `threshold`, and every row whose `id`
differs from the update key is entirely unchanged. -/
theorem C10_thm (store : List InventoryItem) (i : Nat) (q : ℚ) (j : Nat)
    (r : InventoryItem) (h : store[j]? = some r) :
    (updateQuantity store i q).length = store.length ∧
    ∃ r', (updateQuantity store i q)[j]? = some r' ∧
      r'.id = r.id ∧ r'.item_name = r.item_name ∧ r'.unit = r.unit ∧
      r'.threshold = r.threshold ∧ (r.id ≠ i → r' = r) := by
  constructor
  · exact List.length_map store _
  · refine ⟨if r.id = i then { r with quantity := q } else r, ?_, ?_⟩
    · rw [updateQuantity, List.getElem?_map, h]
      rfl
    · by_cases hid : r.id = i
      · simp [hid]
      · simp [hid]

/-- C10 witness: updating the quantity of the row with id 1 in a two-row
store leaves the shape of every row and the whole Milk row intact. -/
theorem C10_witness :
    ((updateQuantity [eggRow, milkRow] 1 2).length = ([eggRow, milkRow] : List InventoryItem).length ∧
    ∃ r', (updateQuantity [eggRow, milkRow] 1 2)[1]? = some r' ∧
      r'.id = milkRow.id ∧ r'.item_name = milkRow.item_name ∧ r'.unit = milkRow.unit ∧
      r'.threshold = milkRow.threshold ∧ (milkRow.id ≠ 1 → r' = milkRow)) :=
  C10_thm [eggRow, milkRow] 1 2 1 milkRow rfl
